import Mathlib

/-!
Verification development for the UpGoV Ground Station application
(`UpGoV_Ground_Station`, Beta 1.3, file `src/unnamed/part_000`).

The shallow embedding below translates the core of the Arduino sketch:
the loop-resident state (`currentState`, `currentBatteryStatus`,
`AT_Recieved`), the inbound-message dispatch ladder, the button debounce
filter `buttonReleased`, the yes/no resolver `getYesOrNo`, the scrolling
OLED message log `printOledMessage`, and the startup handshake.

Time (`millis()`) is modelled as a natural number; `unsigned long`
subtraction `millis() - lastDebounceTime` coincides with truncated `Nat`
subtraction on the monotone traces considered here, since every stored
timestamp is a previous sample time.  Inbound frames and outbound
commands are modelled as `List Char`.  Radio sends are modelled by
collecting the sent command strings; display writes by record fields.
-/

namespace UpGoV

/-- Enumeration `states` from the source. -/
inductive states
  | START_UP | FAULT | READY | ARMED | LOGGING | POST_FLIGHT | ERROR
deriving DecidableEq

/-- Enumeration `battery` from the source. -/
inductive battery
  | FULL | OK | LOWBAT | CRITICAL
deriving DecidableEq

/-- Enumeration `yesOrNo` from the source. -/
inductive yesOrNo
  | YES | NO | MAYBE
deriving DecidableEq

/-- Source constant `PRESSED = 0` (active-low button level). -/
def PRESSED : Nat := 0

/-- Source constant `NOT_PRESSED = 1`. -/
def NOT_PRESSED : Nat := 1

/-- Source constant `DEBOUNCE_DELAY = 50` (milliseconds). -/
def DEBOUNCE_DELAY : Nat := 50

/-- Source constant `UPGOV_ADDR = 2`. -/
def UPGOV_ADDR : Nat := 2

/-- Source constant `GROUND_STATION_ADDR = 1`. -/
def GROUND_STATION_ADDR : Nat := 1

/-- Boolean test that `s` starts with the character list `p`, mirroring
`String.startsWith` as used in the dispatch ladder of `loop()`. -/
def startsWith : List Char → List Char → Bool
  | _, [] => true
  | [], _ :: _ => false
  | c :: s, p :: ps => if p = c then startsWith s ps else false

/-- Per-button debounce bookkeeping: the three global arrays
`buttonStates`, `lastButtonStates`, `lastDebounceTime` of the source,
restricted to one button. -/
structure DebounceState where
  buttonState : Nat
  lastButtonState : Nat
  lastDebounceTime : Nat
deriving DecidableEq

/-- One call of the source function `buttonReleased(button)` at time
`now` with raw sample `reading`; returns the updated per-button state
and whether a release event is reported. -/
def buttonReleased (now reading : Nat) (s : DebounceState) : DebounceState × Bool :=
  let s1 := if reading ≠ s.lastButtonState then
      { s with lastDebounceTime := now, lastButtonState := reading }
    else s
  if DEBOUNCE_DELAY < now - s1.lastDebounceTime then
    if reading ≠ s1.buttonState then
      let s2 := { s1 with buttonState := reading }
      if s2.buttonState = NOT_PRESSED then (s2, true) else (s2, false)
    else (s1, false)
  else (s1, false)

/-- One call of the source function `getYesOrNo()`: polls button B, and
only if that reported no release, polls button C. -/
def getYesOrNo (now readB readC : Nat) (dB dC : DebounceState) :
    yesOrNo × DebounceState × DebounceState :=
  let bRes := buttonReleased now readB dB
  if bRes.2 then (yesOrNo.YES, bRes.1, dC)
  else
    let cRes := buttonReleased now readC dC
    if cRes.2 then (yesOrNo.NO, bRes.1, cRes.1)
    else (yesOrNo.MAYBE, bRes.1, cRes.1)

/-- The static data of `printOledMessage`: the six per-line message
buffers and the fill counter `lineNumber`. -/
structure OledLog where
  lineNumber : Nat
  line0 : List Char
  line1 : List Char
  line2 : List Char
  line3 : List Char
  line4 : List Char
  line5 : List Char
deriving DecidableEq

/-- One call of the source function `printOledMessage(message)`:
fills the next free line, or once six lines are stored, scrolls all
lines up by one and writes the new message at the bottom. -/
def printOledMessage (log : OledLog) (message : List Char) : OledLog :=
  if log.lineNumber = 6 then
    { log with
      line0 := log.line1, line1 := log.line2, line2 := log.line3,
      line3 := log.line4, line4 := log.line5, line5 := message }
  else if log.lineNumber = 5 then
    { log with line5 := message, lineNumber := log.lineNumber + 1 }
  else if log.lineNumber = 4 then
    { log with line4 := message, lineNumber := log.lineNumber + 1 }
  else if log.lineNumber = 3 then
    { log with line3 := message, lineNumber := log.lineNumber + 1 }
  else if log.lineNumber = 2 then
    { log with line2 := message, lineNumber := log.lineNumber + 1 }
  else if log.lineNumber = 1 then
    { log with line1 := message, lineNumber := log.lineNumber + 1 }
  else
    { log with line0 := message, lineNumber := log.lineNumber + 1 }

/-- The lines currently stored in the log, oldest first. -/
def OledLog.storedLines (log : OledLog) : List (List Char) :=
  List.take log.lineNumber
    [log.line0, log.line1, log.line2, log.line3, log.line4, log.line5]

/-- The mutable entities of the dispatch loop: the static locals
`currentState` and `currentBatteryStatus`, the global `AT_Recieved`
flag, the message log, and the data-display fields written through
`printOledData`. -/
structure GState where
  currentState : states
  currentBatteryStatus : battery
  AT_Recieved : Bool
  oledLog : OledLog
  statusField : List Char
  altitudeField : List Char
  accelerationField : List Char
  durationField : List Char
  battery1Field : List Char
  battery2Field : List Char
deriving DecidableEq

/-- The inbound-message processing of `loop()` (lines 216-292 of the
source): length guard followed by the tag dispatch ladder. -/
def processMessage (st : GState) (frame : List Char) : GState :=
  if 3 ≤ frame.length then
    if startsWith frame ("MS:".toList) then
      { st with oledLog := printOledMessage st.oledLog (frame.drop 3) }
    else if startsWith frame ("ER:".toList) then
      { st with oledLog :=
          printOledMessage st.oledLog ("ERROR: ".toList ++ frame.drop 3) }
    else if startsWith frame ("ST:".toList) then
      { st with
        statusField := frame.drop 3,
        currentState :=
          if frame.drop 3 = "FAULT".toList then states.FAULT
          else if frame.drop 3 = "READY".toList then states.READY
          else if frame.drop 3 = "ARMED".toList then states.ARMED
          else if frame.drop 3 = "LOGGING".toList then states.LOGGING
          else if frame.drop 3 = "POST_FLIGHT".toList then states.POST_FLIGHT
          else states.ERROR }
    else if startsWith frame ("AL:".toList) then
      { st with altitudeField := frame.drop 3 }
    else if startsWith frame ("AC:".toList) then
      { st with accelerationField := frame.drop 3 }
    else if startsWith frame ("DU:".toList) then
      { st with durationField := frame.drop 3 }
    else if startsWith frame ("AT:".toList) then
      { st with
        oledLog := printOledMessage st.oledLog ("Lauch again?".toList),
        AT_Recieved := true }
    else if startsWith frame ("B1:".toList) then
      { st with
        battery1Field := frame.drop 3,
        currentBatteryStatus :=
          if frame.drop 3 = "FULL".toList then battery.FULL
          else if frame.drop 3 = "OK".toList then battery.OK
          else if frame.drop 3 = "LOW".toList then battery.LOWBAT
          else if frame.drop 3 = "POOR".toList then battery.CRITICAL
          else battery.CRITICAL }
    else if startsWith frame ("B2:".toList) then
      { st with
        battery2Field := frame.drop 3,
        currentBatteryStatus :=
          if frame.drop 3 = "FULL".toList then battery.FULL
          else if frame.drop 3 = "OK".toList then battery.OK
          else if frame.drop 3 = "LOW".toList then battery.LOWBAT
          else if frame.drop 3 = "POOR".toList then battery.CRITICAL
          else battery.CRITICAL }
    else
      { st with oledLog := printOledMessage st.oledLog ("Invalid message".toList) }
  else st

/-- The loop state together with the three per-button debounce states. -/
structure World where
  gs : GState
  dA : DebounceState
  dB : DebounceState
  dC : DebounceState
deriving DecidableEq

/-- The external stimuli of one pass of `loop()`: at most one inbound
frame, the current `millis()` value, and the raw level of each button. -/
structure TickInput where
  frame : Option (List Char)
  now : Nat
  readA : Nat
  readB : Nat
  readC : Nat
deriving DecidableEq

/-- One pass of `loop()`: process at most one inbound frame, poll button
A and gate the arm/disarm commands on `currentState`, then, if
`AT_Recieved` is set, run the yes/no resolver.  Returns the new world
and the list of commands sent this tick. -/
def loopTick (w : World) (inp : TickInput) : World × List (List Char) :=
  let st1 := match inp.frame with
    | some f => processMessage w.gs f
    | none => w.gs
  let aRes := buttonReleased inp.now inp.readA w.dA
  let armMsgs : List (List Char) :=
    if aRes.2 then
      if st1.currentState = states.READY then ["arm".toList]
      else if st1.currentState = states.ARMED then ["disarm".toList]
      else []
    else []
  let pRes :=
    if st1.AT_Recieved then getYesOrNo inp.now inp.readB inp.readC w.dB w.dC
    else (yesOrNo.MAYBE, w.dB, w.dC)
  let promptMsgs : List (List Char) :=
    if pRes.1 = yesOrNo.YES then ["again".toList]
    else if pRes.1 = yesOrNo.NO then ["no".toList]
    else []
  (⟨st1, aRes.1, pRes.2.1, pRes.2.2⟩, armMsgs ++ promptMsgs)

/-- A sequence of loop passes, collecting all sent commands in order. -/
def runTicks (w : World) : List TickInput → World × List (List Char)
  | [] => (w, [])
  | inp :: rest =>
    let step := loopTick w inp
    let next := runTicks step.1 rest
    (next.1, step.2 ++ next.2)

/-- One handshake attempt of `setup()` (lines 161-190): the attempt
succeeds when the `connect` send was acknowledged, a reply arrived
within the timeout, its origin is `UPGOV_ADDR`, and its first seven
characters compare equal to `"connect"` (the source `strncmp` check). -/
def attemptConnected (ack : Bool) (reply : Option (Nat × List Char)) : Bool :=
  if ack then
    match reply with
    | some (src, buf) =>
      if src = UPGOV_ADDR then startsWith buf ("connect".toList) else false
    | none => false
  else false

/-- The blocking handshake loop over a finite trace of attempt
outcomes: `setup()` finishes within the trace exactly when some attempt
satisfies `attemptConnected`. -/
def handshakeConnected : List (Bool × Option (Nat × List Char)) → Bool
  | [] => false
  | (ack, reply) :: rest => attemptConnected ack reply || handshakeConnected rest

/-- Initial debounce bookkeeping: globals start at `NOT_PRESSED` with a
zero timestamp. -/
def initDebounce : DebounceState := ⟨NOT_PRESSED, NOT_PRESSED, 0⟩

/-- Initial message log: no lines stored. -/
def initOledLog : OledLog := ⟨0, [], [], [], [], [], []⟩

/-- Initial loop state: `currentState = START_UP`,
`currentBatteryStatus = CRITICAL`, `AT_Recieved = false`, empty log and
empty data fields. -/
def initGState : GState :=
  ⟨states.START_UP, battery.CRITICAL, false, initOledLog, [], [], [], [], [], []⟩

/-- Initial world. -/
def initWorld : World := ⟨initGState, initDebounce, initDebounce, initDebounce⟩

/-- Mid-settling condition on a raw sample trace: starting from raw
level `lastLevel` whose last change was at `lastChange`, every sample
either changes the level (restarting the window at its time) or comes
no later than `DEBOUNCE_DELAY` after the last change.  Such a trace is
still inside the stability window at every tick. -/
def settling (lastLevel lastChange : Nat) : List (Nat × Nat) → Bool
  | [] => true
  | (t, r) :: rest =>
    if r = lastLevel then
      if t - lastChange ≤ DEBOUNCE_DELAY then settling lastLevel lastChange rest else false
    else settling r t rest

/-- The raw level and last-change time after feeding a sample trace,
starting from level `lastLevel` last changed at `lastChange`. -/
def trackChange (lastLevel lastChange : Nat) : List (Nat × Nat) → Nat × Nat
  | [] => (lastLevel, lastChange)
  | (t, r) :: rest =>
    if r = lastLevel then trackChange lastLevel lastChange rest else trackChange r t rest

/-- Repeated calls of `buttonReleased` over a `(time, reading)` sample
trace, returning the final debounce state and the number of release
events reported. -/
def debounceRun (s : DebounceState) : List (Nat × Nat) → DebounceState × Nat
  | [] => (s, 0)
  | (t, r) :: rest =>
    let step := buttonReleased t r s
    let next := debounceRun step.1 rest
    (next.1, (if step.2 then 1 else 0) + next.2)

/-- Abstract bounded-FIFO view of one log append, used to relate
`printOledMessage` to the scrolling behaviour stated in the spec. -/
def logModel (l : List (List Char)) (m : List Char) : List (List Char) :=
  if l.length < 6 then l ++ [m] else l.tail ++ [m]

/-- Frame-shape lemma: a `MS:` frame appends its payload to the log and
changes nothing else. -/
theorem processMessage_MS (st : GState) (rest : List Char) :
    processMessage st ('M' :: 'S' :: ':' :: rest) =
      { st with oledLog := printOledMessage st.oledLog rest } := by
  simp +decide [processMessage, startsWith]

/-- Frame-shape lemma: an `ER:` frame appends `ERROR: ` plus its payload
to the log and changes nothing else. -/
theorem processMessage_ER (st : GState) (rest : List Char) :
    processMessage st ('E' :: 'R' :: ':' :: rest) =
      { st with oledLog := printOledMessage st.oledLog ("ERROR: ".toList ++ rest) } := by
  simp +decide [processMessage, startsWith]

/-- Frame-shape lemma: a `ST:` frame writes the status display field and
maps the payload onto `currentState`. -/
theorem processMessage_ST (st : GState) (rest : List Char) :
    processMessage st ('S' :: 'T' :: ':' :: rest) =
      { st with
        statusField := rest,
        currentState :=
          if rest = "FAULT".toList then states.FAULT
          else if rest = "READY".toList then states.READY
          else if rest = "ARMED".toList then states.ARMED
          else if rest = "LOGGING".toList then states.LOGGING
          else if rest = "POST_FLIGHT".toList then states.POST_FLIGHT
          else states.ERROR } := by
  simp +decide [processMessage, startsWith]

/-- Frame-shape lemma: an `AL:` frame only redraws the altitude field. -/
theorem processMessage_AL (st : GState) (rest : List Char) :
    processMessage st ('A' :: 'L' :: ':' :: rest) =
      { st with altitudeField := rest } := by
  simp +decide [processMessage, startsWith]

/-- Frame-shape lemma: an `AC:` frame only redraws the acceleration
field. -/
theorem processMessage_AC (st : GState) (rest : List Char) :
    processMessage st ('A' :: 'C' :: ':' :: rest) =
      { st with accelerationField := rest } := by
  simp +decide [processMessage, startsWith]

/-- Frame-shape lemma: a `DU:` frame only redraws the duration field. -/
theorem processMessage_DU (st : GState) (rest : List Char) :
    processMessage st ('D' :: 'U' :: ':' :: rest) =
      { st with durationField := rest } := by
  simp +decide [processMessage, startsWith]

/-- Frame-shape lemma: an `AT:` frame logs the prompt line and sets
`AT_Recieved`. -/
theorem processMessage_AT (st : GState) (rest : List Char) :
    processMessage st ('A' :: 'T' :: ':' :: rest) =
      { st with
        oledLog := printOledMessage st.oledLog ("Lauch again?".toList),
        AT_Recieved := true } := by
  simp +decide [processMessage, startsWith]

/-- Frame-shape lemma: a `B1:` frame redraws the channel-1 battery
field and writes the single shared `currentBatteryStatus` variable. -/
theorem processMessage_B1 (st : GState) (rest : List Char) :
    processMessage st ('B' :: '1' :: ':' :: rest) =
      { st with
        battery1Field := rest,
        currentBatteryStatus :=
          if rest = "FULL".toList then battery.FULL
          else if rest = "OK".toList then battery.OK
          else if rest = "LOW".toList then battery.LOWBAT
          else if rest = "POOR".toList then battery.CRITICAL
          else battery.CRITICAL } := by
  simp +decide [processMessage, startsWith]

/-- Frame-shape lemma: a `B2:` frame redraws the channel-2 battery
field and writes the same shared `currentBatteryStatus` variable. -/
theorem processMessage_B2 (st : GState) (rest : List Char) :
    processMessage st ('B' :: '2' :: ':' :: rest) =
      { st with
        battery2Field := rest,
        currentBatteryStatus :=
          if rest = "FULL".toList then battery.FULL
          else if rest = "OK".toList then battery.OK
          else if rest = "LOW".toList then battery.LOWBAT
          else if rest = "POOR".toList then battery.CRITICAL
          else battery.CRITICAL } := by
  simp +decide [processMessage, startsWith]

/-- Frames shorter than three characters are dropped without any
effect. -/
theorem processMessage_short (st : GState) (frame : List Char) (h : frame.length < 3) :
    processMessage st frame = st := by
  unfold processMessage
  rw [if_neg (by omega)]

/-- Only `ST:` frames can change `currentState`. -/
theorem processMessage_currentState_eq (st : GState) (frame : List Char)
    (h : startsWith frame ("ST:".toList) = false) :
    (processMessage st frame).currentState = st.currentState := by
  rw [processMessage]
  by_cases h3 : 3 <= frame.length
  case neg => rw [if_neg h3]
  case pos =>
  rw [if_pos h3]
  by_cases h1 : startsWith frame ("MS:".toList) = true
  case pos => rw [if_pos h1]
  case neg =>
  rw [if_neg h1]
  by_cases h2 : startsWith frame ("ER:".toList) = true
  case pos => rw [if_pos h2]
  case neg =>
  rw [if_neg h2]
  rw [if_neg (by rw [h]; simp)]
  by_cases h4 : startsWith frame ("AL:".toList) = true
  case pos => rw [if_pos h4]
  case neg =>
  rw [if_neg h4]
  by_cases h5 : startsWith frame ("AC:".toList) = true
  case pos => rw [if_pos h5]
  case neg =>
  rw [if_neg h5]
  by_cases h6 : startsWith frame ("DU:".toList) = true
  case pos => rw [if_pos h6]
  case neg =>
  rw [if_neg h6]
  by_cases h7 : startsWith frame ("AT:".toList) = true
  case pos => rw [if_pos h7]
  case neg =>
  rw [if_neg h7]
  by_cases h8 : startsWith frame ("B1:".toList) = true
  case pos => rw [if_pos h8]
  case neg =>
  rw [if_neg h8]
  by_cases h9 : startsWith frame ("B2:".toList) = true
  case pos => rw [if_pos h9]
  case neg => rw [if_neg h9]

/-- When button B reports a release, the resolver answers YES without
polling button C, whose debounce state is returned untouched. -/
theorem getYesOrNo_yes (now readB readC : Nat) (dB dC : DebounceState)
    (h : (buttonReleased now readB dB).2 = true) :
    getYesOrNo now readB readC dB dC = (yesOrNo.YES, (buttonReleased now readB dB).1, dC) := by
  simp [getYesOrNo, h]

/-- Shape of one loop pass without an inbound frame: the loop state is
unchanged and the sent commands are the button-A commands followed by at
most one prompt answer. -/
theorem loopTick_none_shape (w : World) (inp : TickInput) (hframe : inp.frame = none) :
    ∃ pm : List (List Char),
      (loopTick w inp).2 =
        (if (buttonReleased inp.now inp.readA w.dA).2 then
          (if w.gs.currentState = states.READY then ["arm".toList]
           else if w.gs.currentState = states.ARMED then ["disarm".toList]
           else [])
         else []) ++ pm
      ∧ (pm = ["again".toList] ∨ pm = ["no".toList] ∨ pm = [])
      ∧ (loopTick w inp).1.gs = w.gs := by
  simp only [loopTick, hframe]
  refine ⟨if (if w.gs.AT_Recieved = true then
      getYesOrNo inp.now inp.readB inp.readC w.dB w.dC
    else (yesOrNo.MAYBE, w.dB, w.dC)).1 = yesOrNo.YES then ["again".toList]
    else if (if w.gs.AT_Recieved = true then
      getYesOrNo inp.now inp.readB inp.readC w.dB w.dC
    else (yesOrNo.MAYBE, w.dB, w.dC)).1 = yesOrNo.NO then ["no".toList]
    else [], rfl, ?_, trivial⟩
  cases hp : (if w.gs.AT_Recieved = true then
      getYesOrNo inp.now inp.readB inp.readC w.dB w.dC
    else (yesOrNo.MAYBE, w.dB, w.dC)).1 <;> simp

/-- A raw-level change resets the debounce window and never reports an
event on the same call. -/
theorem buttonReleased_change (now reading : Nat) (s : DebounceState)
    (h : reading ≠ s.lastButtonState) :
    buttonReleased now reading s =
      ({ s with lastDebounceTime := now, lastButtonState := reading }, false) := by
  simp [buttonReleased, h, DEBOUNCE_DELAY]

/-- An unchanged raw level still inside the stability window reports
nothing and leaves the debounce state untouched. -/
theorem buttonReleased_stable_quiet (now reading : Nat) (s : DebounceState)
    (h : reading = s.lastButtonState)
    (hw : ¬ DEBOUNCE_DELAY < now - s.lastDebounceTime) :
    buttonReleased now reading s = (s, false) := by
  simp [buttonReleased, h, hw]

/-- An unchanged raw level that already equals the committed stable
level reports nothing, whatever the elapsed time. -/
theorem buttonReleased_stable_same (now reading : Nat) (s : DebounceState)
    (h : reading = s.lastButtonState) (hb : reading = s.buttonState) :
    buttonReleased now reading s = (s, false) := by
  subst h
  simp [buttonReleased, ← hb]

/-- Once the stability window has elapsed, a raw level differing from
the committed one is committed, and an event is reported exactly when
the new level is `NOT_PRESSED`. -/
theorem buttonReleased_commit (now reading : Nat) (s : DebounceState)
    (h : reading = s.lastButtonState)
    (hw : DEBOUNCE_DELAY < now - s.lastDebounceTime)
    (hb : reading ≠ s.buttonState) :
    buttonReleased now reading s =
      ({ s with buttonState := reading }, decide (reading = NOT_PRESSED)) := by
  subst h
  simp only [buttonReleased, ne_eq, not_true_eq_false, if_false, ite_not]
  rw [if_pos hw, if_neg (by simpa using hb)]
  by_cases hn : s.lastButtonState = NOT_PRESSED <;> simp [hn]

/-- Over a mid-settling trace the filter reports nothing and the stable
level is not touched; only the raw-level tracking advances. -/
theorem debounceRun_settling (L : List (Nat × Nat)) :
    ∀ s : DebounceState,
      settling s.lastButtonState s.lastDebounceTime L = true →
      debounceRun s L =
        (⟨s.buttonState, (trackChange s.lastButtonState s.lastDebounceTime L).1,
          (trackChange s.lastButtonState s.lastDebounceTime L).2⟩, 0) := by
  induction L with
  | nil => intro s _; simp [debounceRun, trackChange]
  | cons p rest ih =>
    obtain ⟨t, r⟩ := p
    intro s hset
    by_cases hr : r = s.lastButtonState
    · rw [settling, if_pos hr] at hset
      have hw : t - s.lastDebounceTime ≤ DEBOUNCE_DELAY := by
        by_contra hcon
        rw [if_neg hcon] at hset
        exact Bool.noConfusion hset
      rw [if_pos hw] at hset
      have hstep := buttonReleased_stable_quiet t r s hr (by omega)
      rw [debounceRun, trackChange, if_pos hr]
      simp only [hstep]
      rw [ih s hset]
      simp
    · rw [settling, if_neg hr] at hset
      have hstep := buttonReleased_change t r s hr
      rw [debounceRun, trackChange, if_neg hr]
      simp only [hstep]
      rw [ih ({ s with lastDebounceTime := t, lastButtonState := r }) (by simpa using hset)]
      simp

/-- With released committed and tracked, further released samples
report nothing and change nothing. -/
theorem debounceRun_released_stable (L : List (Nat × Nat)) :
    ∀ s : DebounceState, s.buttonState = NOT_PRESSED → s.lastButtonState = NOT_PRESSED →
      (∀ p ∈ L, p.2 = NOT_PRESSED) →
      debounceRun s L = (s, 0) := by
  induction L with
  | nil => intro s _ _ _; rfl
  | cons p rest ih =>
    obtain ⟨t, r⟩ := p
    intro s hb hl hall
    have hr : r = NOT_PRESSED := hall (t, r) (List.mem_cons_self _ _)
    have hstep := buttonReleased_stable_same t r s (by rw [hr, hl]) (by rw [hr, hb])
    rw [debounceRun]
    simp only [hstep]
    rw [ih s hb hl (fun q hq => hall q (List.mem_cons_of_mem _ hq))]
    simp

/-- With pressed committed and released tracked, released samples
inside the stability window report nothing and change nothing. -/
theorem debounceRun_waiting (L : List (Nat × Nat)) :
    ∀ s : DebounceState, s.buttonState = PRESSED → s.lastButtonState = NOT_PRESSED →
      (∀ p ∈ L, p.2 = NOT_PRESSED ∧ p.1 ≤ s.lastDebounceTime + DEBOUNCE_DELAY) →
      debounceRun s L = (s, 0) := by
  induction L with
  | nil => intro s _ _ _; rfl
  | cons p rest ih =>
    obtain ⟨t, r⟩ := p
    intro s hb hl hall
    have hr : r = NOT_PRESSED := (hall (t, r) (List.mem_cons_self _ _)).1
    have ht : t ≤ s.lastDebounceTime + DEBOUNCE_DELAY := (hall (t, r) (List.mem_cons_self _ _)).2
    have hstep := buttonReleased_stable_quiet t r s (by rw [hr, hl]) (by omega)
    rw [debounceRun]
    simp only [hstep]
    rw [ih s hb hl (fun q hq => hall q (List.mem_cons_of_mem _ hq))]
    simp

/-- With pressed committed and released tracked, a trace of released
samples reaching past the stability window reports exactly one release
event and commits the released level. -/
theorem debounceRun_release_fires (L : List (Nat × Nat)) :
    ∀ s : DebounceState, s.buttonState = PRESSED → s.lastButtonState = NOT_PRESSED →
      (∀ p ∈ L, p.2 = NOT_PRESSED) →
      (∃ p ∈ L, s.lastDebounceTime + DEBOUNCE_DELAY < p.1) →
      (debounceRun s L).2 = 1 ∧ (debounceRun s L).1.buttonState = NOT_PRESSED := by
  induction L with
  | nil => intro s _ _ _ hex; simp at hex
  | cons p rest ih =>
    obtain ⟨t, r⟩ := p
    intro s hb hl hall hex
    have hr : r = NOT_PRESSED := hall (t, r) (List.mem_cons_self _ _)
    by_cases hw : DEBOUNCE_DELAY < t - s.lastDebounceTime
    · have hstep := buttonReleased_commit t r s (by rw [hr, hl]) hw
        (by rw [hr, hb]; simp [PRESSED, NOT_PRESSED])
      rw [debounceRun]
      rw [hr] at hstep ⊢
      simp only [hstep]
      have hrest := debounceRun_released_stable rest
        ({ s with buttonState := NOT_PRESSED }) rfl hl
        (fun q hq => hall q (List.mem_cons_of_mem _ hq))
      simp +decide [hrest]
    · have hstep := buttonReleased_stable_quiet t r s (by rw [hr, hl]) hw
      rw [debounceRun]
      simp only [hstep]
      have hex' : ∃ p ∈ rest, s.lastDebounceTime + DEBOUNCE_DELAY < p.1 := by
        obtain ⟨q, hq, hqt⟩ := hex
        rcases List.mem_cons.1 hq with heq | hmem
        · exfalso
          rw [heq] at hqt
          have hqt' : s.lastDebounceTime + DEBOUNCE_DELAY < t := hqt
          omega
        · exact ⟨q, hmem, hqt⟩
      have hrec := ih s hb hl (fun q hq => hall q (List.mem_cons_of_mem _ hq)) hex'
      simpa using hrec

/-- Runs over concatenated traces compose, and their event counts
add. -/
theorem debounceRun_append (L1 L2 : List (Nat × Nat)) :
    ∀ s : DebounceState,
      debounceRun s (L1 ++ L2) =
        ((debounceRun (debounceRun s L1).1 L2).1,
         (debounceRun s L1).2 + (debounceRun (debounceRun s L1).1 L2).2) := by
  induction L1 with
  | nil => intro s; simp [debounceRun]
  | cons p rest ih =>
    obtain ⟨t, r⟩ := p
    intro s
    simp only [List.cons_append, debounceRun, List.append_eq]
    rw [ih]
    simp [Nat.add_assoc]

set_option maxRecDepth 4000 in
/-- One `printOledMessage` call refines one bounded-FIFO append on the
stored lines. -/
theorem printOledMessage_sim (log : OledLog) (m : List Char)
    (hn : log.lineNumber ≤ 6) :
    (printOledMessage log m).storedLines = logModel log.storedLines m
    ∧ (printOledMessage log m).lineNumber ≤ 6 := by
  obtain ⟨n, a0, a1, a2, a3, a4, a5⟩ := log
  simp only at hn
  interval_cases n <;>
    simp [printOledMessage, OledLog.storedLines, logModel]

/-- A sequence of `printOledMessage` calls refines the same sequence of
bounded-FIFO appends. -/
theorem foldl_printOledMessage_sim (ms : List (List Char)) :
    ∀ log : OledLog, log.lineNumber ≤ 6 →
      (List.foldl printOledMessage log ms).storedLines
        = List.foldl logModel log.storedLines ms
      ∧ (List.foldl printOledMessage log ms).lineNumber ≤ 6 := by
  induction ms with
  | nil => intro log h; exact ⟨rfl, h⟩
  | cons m ms ih =>
    intro log h
    have step := printOledMessage_sim log m h
    have rec := ih (printOledMessage log m) step.2
    simp only [List.foldl_cons]
    exact ⟨by rw [rec.1, step.1], rec.2⟩

/-- Folding the bounded-FIFO append keeps exactly the last six entries
of the accumulated sequence. -/
theorem foldl_logModel_drop (ms : List (List Char)) :
    ∀ l : List (List Char), l.length ≤ 6 →
      List.foldl logModel l ms = (l ++ ms).drop (l.length + ms.length - 6) := by
  induction ms with
  | nil =>
    intro l h
    simp [Nat.sub_eq_zero_of_le h]
  | cons m ms ih =>
    intro l h
    simp only [List.foldl_cons]
    by_cases hl : l.length < 6
    · have hmodel : logModel l m = l ++ [m] := if_pos hl
      rw [ih (logModel l m) (by simp [hmodel]; omega), hmodel]
      have e1 : (l ++ [m]) ++ ms = l ++ m :: ms := by
        rw [List.append_assoc, List.singleton_append]
      have i1 : (l ++ [m]).length + ms.length - 6 = l.length + (m :: ms).length - 6 := by
        simp
        omega
      rw [e1, i1]
    · have hl6 : l.length = 6 := by omega
      obtain ⟨a, l', rfl⟩ : ∃ a l', l = a :: l' := by
        cases l with
        | nil => simp at hl6
        | cons a l' => exact ⟨a, l', rfl⟩
      have hl' : l'.length = 5 := by simpa using hl6
      have hmodel : logModel (a :: l') m = l' ++ [m] := by
        rw [logModel, if_neg hl, List.tail_cons]
      rw [ih (logModel (a :: l') m) (by simp [hmodel, hl']), hmodel]
      have e1 : (l' ++ [m]) ++ ms = l' ++ m :: ms := by
        rw [List.append_assoc, List.singleton_append]
      have i1 : (l' ++ [m]).length + ms.length - 6 = ms.length := by
        simp [hl']
      have i2 : (a :: l').length + (m :: ms).length - 6 = ms.length + 1 := by
        simp [hl']
      rw [e1, i1, i2]
      have e2 : (a :: l') ++ m :: ms = a :: (l' ++ m :: ms) := rfl
      rw [e2, List.drop_succ_cons]

/-- Characterization of one handshake attempt: it succeeds exactly when
the send was acknowledged and a reply from `UPGOV_ADDR` arrived whose
payload starts with `connect`. -/
theorem attemptConnected_iff (ack : Bool) (reply : Option (Nat × List Char)) :
    attemptConnected ack reply = true ↔
      ack = true ∧ ∃ buf, reply = some (UPGOV_ADDR, buf)
        ∧ startsWith buf ("connect".toList) = true := by
  rcases reply with _ | ⟨src, buf⟩ <;> cases ack <;>
    simp [attemptConnected] <;> by_cases h : src = UPGOV_ADDR <;> simp [h]

/-- C1: evaluation of the failing input.  The claim states that after an
`AT:` frame a button-B release sends `again` exactly once and clears
`PendingPrompt` (`AT_Recieved`), and that a later release sends nothing.
The code never clears `AT_Recieved`: after one `AT:` frame, two
successive debounced button-B releases each send `again`, and the flag
is still set afterwards. -/
theorem c1_prompt_flag_never_cleared :
    (runTicks initWorld
      [⟨some ("AT:x".toList), 1000, 1, 1, 1⟩,
       ⟨none, 1100, 1, 0, 1⟩, ⟨none, 1200, 1, 0, 1⟩,
       ⟨none, 1300, 1, 1, 1⟩, ⟨none, 1400, 1, 1, 1⟩,
       ⟨none, 1500, 1, 0, 1⟩, ⟨none, 1600, 1, 0, 1⟩,
       ⟨none, 1700, 1, 1, 1⟩, ⟨none, 1800, 1, 1, 1⟩]).2
      = ["again".toList, "again".toList]
    ∧ (runTicks initWorld
      [⟨some ("AT:x".toList), 1000, 1, 1, 1⟩,
       ⟨none, 1100, 1, 0, 1⟩, ⟨none, 1200, 1, 0, 1⟩,
       ⟨none, 1300, 1, 1, 1⟩, ⟨none, 1400, 1, 1, 1⟩,
       ⟨none, 1500, 1, 0, 1⟩, ⟨none, 1600, 1, 0, 1⟩,
       ⟨none, 1700, 1, 1, 1⟩, ⟨none, 1800, 1, 1, 1⟩]).1.gs.AT_Recieved = true := by
  constructor <;> decide

/-- C2: evaluation of the failing input.  The claim states that the two
battery channels are independent state instances.  The code keeps a
single `currentBatteryStatus` variable written by both `B1:` and `B2:`
branches: after `B1:FULL` the battery state is `FULL`, and a subsequent
`B2:POOR` overwrites that same state with `CRITICAL`, so processing a
`B2:` frame does not leave the channel-1 state unchanged. -/
theorem c2_battery_channels_share_state :
    (processMessage initGState ("B1:FULL".toList)).currentBatteryStatus = battery.FULL
    ∧ (processMessage (processMessage initGState ("B1:FULL".toList))
        ("B2:POOR".toList)).currentBatteryStatus = battery.CRITICAL := by
  constructor <;> decide

/-- C3: in any tick without an inbound frame, a button-A release with
`currentState = READY` sends `arm` exactly once and leaves the state at
`READY`; with `ARMED` it sends `disarm` exactly once; in any other state
(or without a release event) neither `arm` nor `disarm` is sent; the
state changes only through a later `ST:ARMED` frame. -/
theorem c3_button_a_gating (w : World) (inp : TickInput) (hframe : inp.frame = none) :
    ((loopTick w inp).1.gs.currentState = w.gs.currentState)
    ∧ ((buttonReleased inp.now inp.readA w.dA).2 = true → w.gs.currentState = states.READY →
        (loopTick w inp).2.count ("arm".toList) = 1
        ∧ (loopTick w inp).1.gs.currentState = states.READY)
    ∧ ((buttonReleased inp.now inp.readA w.dA).2 = true → w.gs.currentState = states.ARMED →
        (loopTick w inp).2.count ("disarm".toList) = 1)
    ∧ ((buttonReleased inp.now inp.readA w.dA).2 = true →
        w.gs.currentState ≠ states.READY → w.gs.currentState ≠ states.ARMED →
        "arm".toList ∉ (loopTick w inp).2 ∧ "disarm".toList ∉ (loopTick w inp).2)
    ∧ ((buttonReleased inp.now inp.readA w.dA).2 = false →
        "arm".toList ∉ (loopTick w inp).2 ∧ "disarm".toList ∉ (loopTick w inp).2)
    ∧ (processMessage w.gs ("ST:ARMED".toList)).currentState = states.ARMED := by
  obtain ⟨pm, hsent, hpm, hgs⟩ := loopTick_none_shape w inp hframe
  have hpm0 : List.count ['a', 'r', 'm'] pm = 0
      ∧ List.count ['d', 'i', 's', 'a', 'r', 'm'] pm = 0
      ∧ ['a', 'r', 'm'] ∉ pm ∧ ['d', 'i', 's', 'a', 'r', 'm'] ∉ pm := by
    rcases hpm with h | h | h <;> subst h <;> refine ⟨?_, ?_, ?_, ?_⟩ <;> decide
  refine ⟨by rw [hgs], ?_, ?_, ?_, ?_, ?_⟩
  · intro hA hR
    refine ⟨?_, by rw [hgs, hR]⟩
    rw [hsent]
    simp [hA, hR, List.count_append, hpm0.1, List.count_cons]
  · intro hA hR
    rw [hsent]
    simp [hA, hR, List.count_append, hpm0.2.1, List.count_cons]
  · intro hA h1 h2
    rw [hsent]
    simp [hA, h1, h2, hpm0.2.2.1, hpm0.2.2.2]
  · intro hA
    rw [hsent]
    simp [hA, hpm0.2.2.1, hpm0.2.2.2]
  · rw [show ("ST:ARMED".toList) = 'S' :: 'T' :: ':' :: ("ARMED".toList) from rfl,
      processMessage_ST]
    simp +decide

/-- Witness for C3 at a concrete ready world and release tick. -/
theorem c3_witness :
    (buttonReleased 100 1 (⟨0, 1, 0⟩ : DebounceState)).2 = true
    ∧ (loopTick ⟨{ initGState with currentState := states.READY },
        ⟨0, 1, 0⟩, initDebounce, initDebounce⟩ ⟨none, 100, 1, 1, 1⟩).2.count ("arm".toList) = 1
    ∧ (loopTick ⟨{ initGState with currentState := states.READY },
        ⟨0, 1, 0⟩, initDebounce, initDebounce⟩ ⟨none, 100, 1, 1, 1⟩).1.gs.currentState
      = states.READY := by
  refine ⟨by decide, ?_, ?_⟩
  · exact ((c3_button_a_gating ⟨{ initGState with currentState := states.READY },
      ⟨0, 1, 0⟩, initDebounce, initDebounce⟩ ⟨none, 100, 1, 1, 1⟩ rfl).2.1 (by decide) rfl).1
  · exact ((c3_button_a_gating ⟨{ initGState with currentState := states.READY },
      ⟨0, 1, 0⟩, initDebounce, initDebounce⟩ ⟨none, 100, 1, 1, 1⟩ rfl).2.1 (by decide) rfl).2

/-- C4: `currentState` is mutated only by `ST:` frames, and an `ST:`
frame maps its payload `FAULT`, `READY`, `ARMED`, `LOGGING`,
`POST_FLIGHT` to the named state and every other payload to `ERROR`. -/
theorem c4_ground_state_mapping (st : GState) (frame rest : List Char) :
    (startsWith frame ("ST:".toList) = false →
      (processMessage st frame).currentState = st.currentState)
    ∧ ((processMessage st ('S' :: 'T' :: ':' :: rest)).currentState =
        if rest = "FAULT".toList then states.FAULT
        else if rest = "READY".toList then states.READY
        else if rest = "ARMED".toList then states.ARMED
        else if rest = "LOGGING".toList then states.LOGGING
        else if rest = "POST_FLIGHT".toList then states.POST_FLIGHT
        else states.ERROR) := by
  refine ⟨fun h => processMessage_currentState_eq st frame h, ?_⟩
  rw [processMessage_ST]

/-- Witness for C4 at the concrete frames `MS:hi` and `ST:ARMED`. -/
theorem c4_witness :
    startsWith ("MS:hi".toList) ("ST:".toList) = false
    ∧ (processMessage initGState ("MS:hi".toList)).currentState = initGState.currentState
    ∧ (processMessage initGState ("ST:ARMED".toList)).currentState = states.ARMED := by
  refine ⟨by decide,
    (c4_ground_state_mapping initGState ("MS:hi".toList) ("ARMED".toList)).1 (by decide), ?_⟩
  have h := (c4_ground_state_mapping initGState ("MS:hi".toList) ("ARMED".toList)).2
  exact h.trans (by decide)

/-- C5: for a raw-level trace that bounces inside the stability window,
settles at released with the final change (from pressed) at time `t0`,
and then stays released: no event is reported up to `t0 + DEBOUNCE_DELAY`
(never mid-settling), exactly one release event is reported once a
sample falls beyond the window, and presses never report an event. -/
theorem c5_debounce_single_release (s0 : DebounceState) (B S1 S2 : List (Nat × Nat)) (t0 : Nat)
    (hbs : s0.buttonState = PRESSED) (hlbs : s0.lastButtonState = PRESSED)
    (hset : settling PRESSED s0.lastDebounceTime B = true)
    (hend : (trackChange PRESSED s0.lastDebounceTime B).1 = PRESSED)
    (hS1 : ∀ p ∈ S1, p.2 = NOT_PRESSED ∧ p.1 ≤ t0 + DEBOUNCE_DELAY)
    (hS2 : ∀ p ∈ S2, p.2 = NOT_PRESSED)
    (hfire : ∃ p ∈ S2, t0 + DEBOUNCE_DELAY < p.1) :
    (debounceRun s0 (B ++ (t0, NOT_PRESSED) :: S1)).2 = 0
    ∧ (debounceRun s0 (B ++ (t0, NOT_PRESSED) :: (S1 ++ S2))).2 = 1
    ∧ (debounceRun s0 (B ++ (t0, NOT_PRESSED) :: (S1 ++ S2))).1.buttonState = NOT_PRESSED
    ∧ (∀ now s, (buttonReleased now PRESSED s).2 = false) := by
  -- the bounce phase commits nothing and reports nothing
  have hB := debounceRun_settling B s0 (by rw [hlbs]; exact hset)
  rw [hlbs, hend, hbs] at hB
  -- the final raw change (pressed to released) at time t0 resets the window
  have hchange : buttonReleased t0 NOT_PRESSED
      (⟨PRESSED, PRESSED, (trackChange PRESSED s0.lastDebounceTime B).2⟩ : DebounceState)
      = ((⟨PRESSED, NOT_PRESSED, t0⟩ : DebounceState), false) :=
    buttonReleased_change t0 NOT_PRESSED _ (by simp [NOT_PRESSED, PRESSED])
  -- within the stability window nothing fires
  have hwait := debounceRun_waiting S1 (⟨PRESSED, NOT_PRESSED, t0⟩ : DebounceState)
    rfl rfl hS1
  -- once the window has elapsed, exactly one release fires
  have hfires := debounceRun_release_fires S2 (⟨PRESSED, NOT_PRESSED, t0⟩ : DebounceState)
    rfl rfl hS2 hfire
  refine ⟨?_, ?_, ?_, ?_⟩
  · rw [debounceRun_append, hB]
    simp only [debounceRun, hchange]
    rw [hwait]
    simp
  · rw [debounceRun_append, hB]
    simp only [debounceRun, hchange]
    rw [debounceRun_append, hwait]
    simp [hfires.1]
  · rw [debounceRun_append, hB]
    simp only [debounceRun, hchange]
    rw [debounceRun_append, hwait]
    simp [hfires.2]
  · intro now s
    simp only [buttonReleased]
    split_ifs <;> first | rfl | simp_all [PRESSED, NOT_PRESSED]

/-- Witness for C5 on a concrete bouncing-then-released trace. -/
theorem c5_witness :
    settling PRESSED 0 [(10, 1), (20, 0), (30, 0)] = true
    ∧ (debounceRun ⟨0, 0, 0⟩
        ([(10, 1), (20, 0), (30, 0)] ++ (40, NOT_PRESSED) :: [(60, 1)])).2 = 0
    ∧ (debounceRun ⟨0, 0, 0⟩
        ([(10, 1), (20, 0), (30, 0)] ++ (40, NOT_PRESSED) :: ([(60, 1)] ++ [(100, 1)]))).2 = 1
    ∧ (debounceRun ⟨0, 0, 0⟩
        ([(10, 1), (20, 0), (30, 0)] ++ (40, NOT_PRESSED) :: ([(60, 1)] ++ [(100, 1)]))).1.buttonState
      = NOT_PRESSED := by
  refine ⟨by decide, ?_, ?_, ?_⟩
  · exact (c5_debounce_single_release ⟨0, 0, 0⟩ [(10, 1), (20, 0), (30, 0)] [(60, 1)] [(100, 1)] 40
      rfl rfl (by decide) (by decide) (by decide) (by decide) (by decide)).1
  · exact (c5_debounce_single_release ⟨0, 0, 0⟩ [(10, 1), (20, 0), (30, 0)] [(60, 1)] [(100, 1)] 40
      rfl rfl (by decide) (by decide) (by decide) (by decide) (by decide)).2.1
  · exact (c5_debounce_single_release ⟨0, 0, 0⟩ [(10, 1), (20, 0), (30, 0)] [(60, 1)] [(100, 1)] 40
      rfl rfl (by decide) (by decide) (by decide) (by decide) (by decide)).2.2.1

/-- C6 counterexample: the claim states that a frame shorter than three
bytes is reported exactly once as an `Invalid message` log line.  The
two-byte frame `AB` leaves the whole state, including the log, exactly
unchanged: no log line is produced. -/
theorem c6_counterexample_no_log_line :
    processMessage initGState ("AB".toList) = initGState
    ∧ (processMessage initGState ("AB".toList)).oledLog.storedLines = [] := by
  constructor <;> decide

/-- C6 (amended): every inbound frame shorter than three bytes is
dropped silently: no entity mutates and no log line is produced. -/
theorem c6_short_frame_silent_drop (st : GState) (frame : List Char)
    (hshort : frame.length < 3) :
    processMessage st frame = st :=
  processMessage_short st frame hshort

/-- Witness for C6 at the concrete short frame `AB`. -/
theorem c6_witness :
    ("AB".toList.length < 3) ∧ processMessage initGState ("AB".toList) = initGState :=
  ⟨by decide, c6_short_frame_silent_drop initGState ("AB".toList) (by decide)⟩

/-- C7 counterexample: the claim states that only a reply whose payload
equals `connect` satisfies the handshake.  A reply from the peer with
payload `connected` also satisfies it, because the code compares only
the first seven characters. -/
theorem c7_counterexample_prefix_match :
    attemptConnected true (some (UPGOV_ADDR, "connected".toList)) = true
    ∧ "connected".toList ≠ "connect".toList := by
  constructor <;> decide

/-- C7 (amended): the handshake loop finishes within a trace of attempt
outcomes exactly when some attempt was acknowledged and received a
reply from `UPGOV_ADDR` whose payload starts with `connect`; replies
from other origins, with other payloads, or absent replies never
satisfy it, so the dispatch loop begins only after such a reply. -/
theorem c7_handshake_characterization
    (trace : List (Bool × Option (Nat × List Char))) :
    handshakeConnected trace = true ↔
      ∃ a ∈ trace, a.1 = true ∧
        ∃ buf, a.2 = some (UPGOV_ADDR, buf)
          ∧ startsWith buf ("connect".toList) = true := by
  induction trace with
  | nil => simp [handshakeConnected]
  | cons a rest ih =>
    obtain ⟨ack, reply⟩ := a
    simp only [handshakeConnected, Bool.or_eq_true, ih, List.mem_cons]
    constructor
    · rintro (h | ⟨b, hb, hprops⟩)
      · exact ⟨(ack, reply), Or.inl rfl, (attemptConnected_iff ack reply).1 h⟩
      · exact ⟨b, Or.inr hb, hprops⟩
    · rintro ⟨b, (rfl | hb), hprops⟩
      · exact Or.inl ((attemptConnected_iff ack reply).2 hprops)
      · exact Or.inr ⟨b, hb, hprops⟩

/-- C8: for every sequence of appends the stored log never exceeds six
lines and always holds exactly the last six appended lines in order; in
particular appending seven lines to the empty log keeps lines two to
seven and discards the first. -/
theorem c8_scrolllog_bounded_fifo (ms : List (List Char)) :
    ((List.foldl printOledMessage initOledLog ms).storedLines).length ≤ 6
    ∧ (List.foldl printOledMessage initOledLog ms).storedLines = ms.drop (ms.length - 6)
    ∧ (∀ a b c d e f g : List Char,
        (List.foldl printOledMessage initOledLog [a, b, c, d, e, f, g]).storedLines
          = [b, c, d, e, f, g]) := by
  have hsim := foldl_printOledMessage_sim ms initOledLog (by simp [initOledLog])
  have hdrop := foldl_logModel_drop ms [] (by simp)
  have hstored : initOledLog.storedLines = [] := rfl
  rw [hstored] at hsim
  have hmain : (List.foldl printOledMessage initOledLog ms).storedLines
      = ms.drop (ms.length - 6) := by
    rw [hsim.1, hdrop]
    simp
  refine ⟨?_, hmain, fun a b c d e f g => ?_⟩
  · rw [hmain]
    simp
    omega
  · simp +decide [printOledMessage, initOledLog, OledLog.storedLines]

/-- C9 counterexample: the claim states that when both buttons B and C
are due to report a release in one tick of a pending prompt, button C's
release is consumed without effect.  In the code `buttonReleased` for C
is short-circuited and not called, so C's release stays pending: the
first tick sends `again` only, and the next tick sends `no`. -/
theorem c9_counterexample_c_release_not_consumed :
    (buttonReleased 100 1 (⟨0, 1, 0⟩ : DebounceState)).2 = true
    ∧ (runTicks ⟨{ initGState with AT_Recieved := true }, initDebounce, ⟨0, 1, 0⟩, ⟨0, 1, 0⟩⟩
        [⟨none, 100, 1, 1, 1⟩]).2 = ["again".toList]
    ∧ (runTicks ⟨{ initGState with AT_Recieved := true }, initDebounce, ⟨0, 1, 0⟩, ⟨0, 1, 0⟩⟩
        [⟨none, 100, 1, 1, 1⟩, ⟨none, 200, 1, 1, 1⟩]).2
      = ["again".toList, "no".toList] := by
  refine ⟨by decide, by decide, by decide⟩

/-- C9 (amended): while a prompt is pending, a tick in which button B
reports a release sends `again` exactly once and no `no`, whatever
button C would report, and leaves button C's debounce state untouched
(its release is not consumed and remains pending). -/
theorem c9_b_precedence (w : World) (inp : TickInput)
    (hframe : inp.frame = none) (hat : w.gs.AT_Recieved = true)
    (hB : (buttonReleased inp.now inp.readB w.dB).2 = true) :
    (loopTick w inp).2.count ("again".toList) = 1
    ∧ "no".toList ∉ (loopTick w inp).2
    ∧ (loopTick w inp).1.dC = w.dC := by
  simp only [loopTick, hframe, hat, if_pos,
    getYesOrNo_yes inp.now inp.readB inp.readC w.dB w.dC hB]
  refine ⟨?_, ?_, trivial⟩ <;>
    cases hA : (buttonReleased inp.now inp.readA w.dA).2 <;>
    simp [List.count_append, List.count_cons] <;>
    split_ifs <;> simp +decide

/-- Witness for C9 at a concrete pending-prompt world. -/
theorem c9_witness :
    (loopTick ⟨{ initGState with AT_Recieved := true }, initDebounce, ⟨0, 1, 0⟩, initDebounce⟩
      ⟨none, 100, 1, 1, 1⟩).2.count ("again".toList) = 1
    ∧ "no".toList ∉ (loopTick ⟨{ initGState with AT_Recieved := true },
        initDebounce, ⟨0, 1, 0⟩, initDebounce⟩ ⟨none, 100, 1, 1, 1⟩).2
    ∧ (loopTick ⟨{ initGState with AT_Recieved := true }, initDebounce, ⟨0, 1, 0⟩, initDebounce⟩
        ⟨none, 100, 1, 1, 1⟩).1.dC = initDebounce :=
  c9_b_precedence ⟨{ initGState with AT_Recieved := true }, initDebounce, ⟨0, 1, 0⟩, initDebounce⟩
    ⟨none, 100, 1, 1, 1⟩ rfl rfl (by decide)

/-- C10: frames tagged `MS:`, `ER:`, `AL:`, `AC:`, `DU:` (length at
least three) leave `currentState`, the battery status and `AT_Recieved`
unchanged; they only touch the log or a display field. -/
theorem c10_display_tags_preserve_state (st : GState) (rest : List Char) :
    ((processMessage st ('M' :: 'S' :: ':' :: rest)).currentState = st.currentState
      ∧ (processMessage st ('M' :: 'S' :: ':' :: rest)).currentBatteryStatus = st.currentBatteryStatus
      ∧ (processMessage st ('M' :: 'S' :: ':' :: rest)).AT_Recieved = st.AT_Recieved)
    ∧ ((processMessage st ('E' :: 'R' :: ':' :: rest)).currentState = st.currentState
      ∧ (processMessage st ('E' :: 'R' :: ':' :: rest)).currentBatteryStatus = st.currentBatteryStatus
      ∧ (processMessage st ('E' :: 'R' :: ':' :: rest)).AT_Recieved = st.AT_Recieved)
    ∧ ((processMessage st ('A' :: 'L' :: ':' :: rest)).currentState = st.currentState
      ∧ (processMessage st ('A' :: 'L' :: ':' :: rest)).currentBatteryStatus = st.currentBatteryStatus
      ∧ (processMessage st ('A' :: 'L' :: ':' :: rest)).AT_Recieved = st.AT_Recieved)
    ∧ ((processMessage st ('A' :: 'C' :: ':' :: rest)).currentState = st.currentState
      ∧ (processMessage st ('A' :: 'C' :: ':' :: rest)).currentBatteryStatus = st.currentBatteryStatus
      ∧ (processMessage st ('A' :: 'C' :: ':' :: rest)).AT_Recieved = st.AT_Recieved)
    ∧ ((processMessage st ('D' :: 'U' :: ':' :: rest)).currentState = st.currentState
      ∧ (processMessage st ('D' :: 'U' :: ':' :: rest)).currentBatteryStatus = st.currentBatteryStatus
      ∧ (processMessage st ('D' :: 'U' :: ':' :: rest)).AT_Recieved = st.AT_Recieved) := by
  simp [processMessage_MS, processMessage_ER, processMessage_AL,
    processMessage_AC, processMessage_DU]

end UpGoV
